import Mathlib

/-!
Shallow embedding of the equilibrio-vida API server (src/server.js, second
revision: the variant that uses `userId` request fields and the `criador`
query parameter, lines 340-571).  The in-memory collections `db.atividades`
and `db.participacoes` provided by the `data` module are modelled as a `DB`
state threaded through the route handlers; the claims quantify over states
reachable from empty collections, so the initial contents of the data module
are not needed.

JavaScript identifier values reaching the participation collection are
numbers or strings (`JSValue`); strict equality `===` between such values is
structural equality.  Results of `Number(...)` applied to route parameters
are modelled as `Int` (the handlers apply `Number` only to ids and user
ids).  `String.toLower` stands in for JavaScript `toLowerCase`; the
properties proved here only need that equal strings stay equal and that the
fold is a function of the string.
-/

/-- A JavaScript value in an identifier position: a number or a string.
Strict equality on these values is structural equality. -/
inductive JSValue where
  | num : Int → JSValue
  | str : String → JSValue
deriving DecidableEq, Repr

/-- JavaScript truthiness of an identifier value: the number `0` and the
empty string are falsy, everything else is truthy. -/
def JSValue.falsy : JSValue → Bool
  | .num n => n == 0
  | .str s => s == ""

/-- An activity record.  POST /atividades copies the request body verbatim
(`{ id: db.atividades.length + 1, ...req.body }`), so every body field may be
absent. -/
structure Atividade where
  id : Int
  nome : Option String := none
  descricao : Option String := none
  duracaoMin : Option Int := none
  categoria : Option String := none
  criador : Option String := none
deriving DecidableEq, Repr

/-- A request body for POST /atividades.  The handler spreads the body after
the `id` it computes, so a body may itself carry an `id` field. -/
structure CreateBody where
  id : Option Int := none
  nome : Option String := none
  descricao : Option String := none
  duracaoMin : Option Int := none
  categoria : Option String := none
  criador : Option String := none
deriving DecidableEq, Repr

/-- A participation record pushed by POST /atividades/:id/join:
`{ userId, atividadeId }`.  The `userId` is stored exactly as it appears in
the request body (no `Number` conversion); `atividadeId` comes from
`Number(req.params.id)`. -/
structure Participacao where
  userId : JSValue
  atividadeId : Int
deriving DecidableEq, Repr

/-- The two in-memory collections of the `data` module. -/
structure DB where
  atividades : List Atividade
  participacoes : List Participacao
deriving DecidableEq, Repr

/-- Both collections empty. -/
def DB.empty : DB := { atividades := [], participacoes := [] }

/-- ASCII case folding, standing in for JavaScript `toLowerCase` (written
over the character list so that the kernel can evaluate it). -/
def toLowerStr (s : String) : String := String.mk (s.data.map Char.toLower)

/-- GET /atividades: `const { criador } = req.query; if (criador) ...`.
A `none` result models the TypeError thrown by `a.criador.toLowerCase()`
when some stored activity has no `criador` field; the filter branch is taken
only when the query value is present and truthy (non-empty). -/
def listAtividades (criador : Option String) (db : DB) : Option (List Atividade) :=
  match criador with
  | none => some db.atividades
  | some c =>
    if c == "" then some db.atividades
    else if db.atividades.all (fun a => a.criador.isSome) then
      some (db.atividades.filter (fun a => toLowerStr (a.criador.getD "") == toLowerStr c))
    else none

/-- The membership test the GET /atividades/:id handler runs:
`db.participacoes.some((p) => p.userId === userId && p.atividadeId === atividadeId)`
with `userId = Number(req.query.userId)`.  This is also the spec's
`ParticipationLedger.isParticipating`. -/
def isParticipating (db : DB) (userId : Int) (atividadeId : Int) : Bool :=
  db.participacoes.any
    (fun p => p.userId == JSValue.num userId && p.atividadeId == atividadeId)

/-- Result of GET /atividades/:id: 404 `{erro}` or 200 with the activity's
fields spread into the response together with the `participa` flag. -/
inductive GetResult where
  | notFound
  | ok (atividade : Atividade) (participa : Bool)
deriving DecidableEq, Repr

/-- GET /atividades/:id: find by `a.id === Number(req.params.id)`; when a
`userId` query value is present it is converted with `Number` and checked
against the participation collection. -/
def getAtividade (atividadeId : Int) (userId : Option Int) (db : DB) : GetResult :=
  match db.atividades.find? (fun a => a.id == atividadeId) with
  | none => .notFound
  | some atividade =>
    let participa :=
      match userId with
      | some u => isParticipating db u atividadeId
      | none => false
    .ok atividade participa

/-- POST /atividades: `const nova = { id: db.atividades.length + 1,
...req.body }; db.atividades.push(nova)`.  The body is spread after the
computed id, so a body `id` field overrides it.  Returns the created record
(201) and the new state. -/
def createAtividade (body : CreateBody) (db : DB) : Atividade × DB :=
  let nova : Atividade :=
    { id := body.id.getD ((db.atividades.length : Int) + 1)
      nome := body.nome
      descricao := body.descricao
      duracaoMin := body.duracaoMin
      categoria := body.categoria
      criador := body.criador }
  (nova, { db with atividades := db.atividades ++ [nova] })

/-- DELETE /atividades/:id: `findIndex` on `a.id === Number(req.params.id)`,
404 `{erro}` when `-1`, otherwise `splice(index, 1)` and the removed record
is returned in the response. -/
def deleteAtividade (atividadeId : Int) (db : DB) : Option Atividade × DB :=
  match db.atividades.findIdx? (fun a => a.id == atividadeId) with
  | none => (none, db)
  | some index =>
      (db.atividades[index]?, { db with atividades := db.atividades.eraseIdx index })

/-- Outcome of POST /atividades/:id/join: 400 `{erro}` for a missing/falsy
`userId`, 404 `{erro}` for an unknown activity, 400 `{erro}` for a duplicate
participation, or 200 with the stored ids. -/
inductive JoinResult where
  | invalidInput
  | activityNotFound
  | alreadyJoined
  | success (atividadeId : Int) (userId : JSValue)
deriving DecidableEq, Repr

/-- POST /atividades/:id/join: checks `!userId` on the raw body value first,
then resolves the activity, then searches for an existing pair with
`p.userId === userId && p.atividadeId === atividadeId`, and only then pushes
`{ userId, atividadeId }`. -/
def joinAtividade (atividadeId : Int) (userId : Option JSValue) (db : DB) :
    JoinResult × DB :=
  match userId with
  | none => (.invalidInput, db)
  | some u =>
    if u.falsy then (.invalidInput, db)
    else
      match db.atividades.find? (fun a => a.id == atividadeId) with
      | none => (.activityNotFound, db)
      | some _ =>
        match db.participacoes.find?
            (fun p => p.userId == u && p.atividadeId == atividadeId) with
        | some _ => (.alreadyJoined, db)
        | none =>
          (.success atividadeId u,
           { db with participacoes :=
               db.participacoes ++ [{ userId := u, atividadeId := atividadeId }] })

/-- Outcome of DELETE /usuarios/:userId/atividades/:id/leave: 404 `{erro}`
when no pair matches, otherwise 200 with the ids. -/
inductive LeaveResult where
  | notParticipating
  | success (atividadeId : Int) (userId : Int)
deriving DecidableEq, Repr

/-- DELETE /usuarios/:userId/atividades/:id/leave: both path parameters go
through `Number`, then `findIndex` on `p.userId === userId && p.atividadeId
=== atividadeId` and `splice(index, 1)`. -/
def leaveAtividade (userId : Int) (atividadeId : Int) (db : DB) :
    LeaveResult × DB :=
  match db.participacoes.findIdx?
      (fun p => p.userId == JSValue.num userId && p.atividadeId == atividadeId) with
  | none => (.notParticipating, db)
  | some index =>
      (.success atividadeId userId,
       { db with participacoes := db.participacoes.eraseIdx index })

/-- One request against the server.  GET requests do not change the
collections; the four mutating requests transform the state exactly as the
handlers do. -/
inductive Step : DB → DB → Prop where
  | list (criador : Option String) (db : DB) : Step db db
  | get (atividadeId : Int) (userId : Option Int) (db : DB) : Step db db
  | create (body : CreateBody) (db : DB) : Step db (createAtividade body db).2
  | delete (atividadeId : Int) (db : DB) : Step db (deleteAtividade atividadeId db).2
  | join (atividadeId : Int) (userId : Option JSValue) (db : DB) :
      Step db (joinAtividade atividadeId userId db).2
  | leave (userId atividadeId : Int) (db : DB) :
      Step db (leaveAtividade userId atividadeId db).2

/-- States reachable from empty collections by any sequence of requests. -/
inductive Reachable : DB → Prop where
  | empty : Reachable DB.empty
  | step {db db' : DB} : Reachable db → Step db db' → Reachable db'

/-- Request bodies used in the concrete runs below. -/
def bodyYoga : CreateBody := { nome := some "Yoga", criador := some "Ana" }

def bodyCorrida : CreateBody := { nome := some "Corrida", criador := some "Bia" }

def bodyNatacao : CreateBody := { nome := some "Natacao", criador := some "Ana" }

/-- State after creating the Yoga activity in the empty store: one activity
with id 1. -/
def dbYoga : DB := (createAtividade bodyYoga DB.empty).2

/-- State after creating Yoga and then Corrida: ids 1 and 2. -/
def dbTwo : DB := (createAtividade bodyCorrida dbYoga).2

/-- State after deleting activity 1 from `dbTwo`: only Corrida (id 2) is
left, but the collection length is back to 1. -/
def dbOneLeft : DB := (deleteAtividade 1 dbTwo).2

/-- State after a further create in `dbOneLeft`: the new record gets id
`length + 1 = 2`, colliding with the surviving Corrida record. -/
def dbColl : DB := (createAtividade bodyNatacao dbOneLeft).2

example : dbYoga.atividades = [{ id := 1, nome := some "Yoga", criador := some "Ana" }] := by decide

example : dbColl.atividades =
    [{ id := 2, nome := some "Corrida", criador := some "Bia" },
     { id := 2, nome := some "Natacao", criador := some "Ana" }] := by decide

example : (joinAtividade 1 (some (JSValue.num 42)) dbYoga).1 =
    JoinResult.success 1 (JSValue.num 42) := by decide

example : (joinAtividade 1 none dbYoga).1 = JoinResult.invalidInput := by decide

example : listAtividades (some "ana") dbYoga = some dbYoga.atividades := by decide

/-- A participation record matches the search predicate of the join, leave
and membership scans exactly when it equals the pair being searched for. -/
lemma participacao_match_iff (p : Participacao) (u : JSValue) (a : Int) :
    (p.userId == u && p.atividadeId == a) = true ↔ p = ⟨u, a⟩ := by
  cases p with
  | mk pu pa => simp [Participacao.mk.injEq]

/-- POST /atividades leaves the participation collection untouched. -/
lemma createAtividade_participacoes (body : CreateBody) (db : DB) :
    (createAtividade body db).2.participacoes = db.participacoes := rfl

/-- DELETE /atividades/:id leaves the participation collection untouched. -/
lemma deleteAtividade_participacoes (atividadeId : Int) (db : DB) :
    (deleteAtividade atividadeId db).2.participacoes = db.participacoes := by
  unfold deleteAtividade
  cases db.atividades.findIdx? (fun a => a.id == atividadeId) <;> rfl

/-- POST /atividades/:id/join leaves the activity collection untouched. -/
lemma joinAtividade_atividades (atividadeId : Int) (userId : Option JSValue) (db : DB) :
    (joinAtividade atividadeId userId db).2.atividades = db.atividades := by
  unfold joinAtividade
  cases userId with
  | none => rfl
  | some u =>
    dsimp only
    split
    · rfl
    · split
      · rfl
      · split <;> rfl

/-- DELETE /usuarios/:userId/atividades/:id/leave leaves the activity
collection untouched. -/
lemma leaveAtividade_atividades (userId atividadeId : Int) (db : DB) :
    (leaveAtividade userId atividadeId db).2.atividades = db.atividades := by
  unfold leaveAtividade
  cases db.participacoes.findIdx?
      (fun p => p.userId == JSValue.num userId && p.atividadeId == atividadeId) <;> rfl

/-- When at most one element satisfies `p` and `findIdx?` locates one,
erasing the found index leaves no element satisfying `p`. -/
lemma countP_le_one_eraseIdx {α : Type} (p : α → Bool) (l : List α) :
    ∀ i : Nat, l.countP p ≤ 1 → l.findIdx? p = some i →
      ∀ x ∈ l.eraseIdx i, p x = false := by
  induction l with
  | nil => intro i _ hfind; simp at hfind
  | cons a l ih =>
    intro i hcount hfind
    rw [List.findIdx?_cons] at hfind
    by_cases hpa : p a = true
    · simp only [hpa, if_true, Option.some.injEq] at hfind
      subst hfind
      rw [List.eraseIdx_cons_zero]
      have hzero : l.countP p = 0 := by
        simp only [List.countP_cons, hpa, if_true] at hcount
        omega
      intro x hx
      exact Bool.eq_false_iff.mpr (List.countP_eq_zero.mp hzero x hx)
    · rw [if_neg hpa, List.findIdx?_succ] at hfind
      cases hrec : l.findIdx? p with
      | none => rw [hrec] at hfind; simp at hfind
      | some j =>
        rw [hrec] at hfind
        simp only [Option.map_some', Option.some.injEq] at hfind
        subst hfind
        rw [List.eraseIdx_cons_succ]
        intro x hx
        rcases List.mem_cons.mp hx with rfl | hx2
        · exact Bool.eq_false_iff.mpr hpa
        · have hc : l.countP p ≤ 1 := by
            rw [List.countP_cons] at hcount
            omega
          exact ih j hc hrec x hx2

/-- The element at the index located by `findIdx?` is the first element
satisfying the predicate. -/
lemma findIdx?_getElem?_eq_find? {α : Type} (p : α → Bool) (l : List α) :
    ∀ i : Nat, l.findIdx? p = some i → l[i]? = l.find? p := by
  induction l with
  | nil => intro i h; simp at h
  | cons a l ih =>
    intro i h
    rw [List.findIdx?_cons] at h
    by_cases hpa : p a = true
    · simp only [hpa, if_true, Option.some.injEq] at h
      subst h
      simp [List.find?_cons, hpa]
    · rw [if_neg hpa, List.findIdx?_succ] at h
      cases hrec : l.findIdx? p with
      | none => rw [hrec] at h; simp at h
      | some j =>
        rw [hrec] at h
        simp only [Option.map_some', Option.some.injEq] at h
        subst h
        simp [List.find?_cons, hpa, ih j hrec]

/-- Every request preserves the property that the participation collection
has no duplicate records. -/
lemma Step.participacoes_nodup {db db' : DB} (h : Step db db')
    (hn : db.participacoes.Nodup) : db'.participacoes.Nodup := by
  cases h with
  | list _ _ => exact hn
  | get _ _ _ => exact hn
  | create body db => rw [createAtividade_participacoes]; exact hn
  | delete atividadeId db => rw [deleteAtividade_participacoes]; exact hn
  | join atividadeId userId db =>
    cases userId with
    | none => exact hn
    | some u =>
      by_cases hf : u.falsy
      · simp [joinAtividade, hf]; exact hn
      · cases hact : db.atividades.find? (fun a => a.id == atividadeId) with
        | none => simp [joinAtividade, hf, hact]; exact hn
        | some x =>
          cases hpart : db.participacoes.find?
              (fun p => p.userId == u && p.atividadeId == atividadeId) with
          | some q => simp [joinAtividade, hf, hact, hpart]; exact hn
          | none =>
            simp only [joinAtividade, hf, if_false, hact, hpart]
            refine List.Nodup.append hn (List.nodup_singleton _) ?_
            intro y hy hmem
            rw [List.mem_singleton] at hmem
            subst hmem
            have := List.find?_eq_none.mp hpart _ hy
            exact this ((participacao_match_iff _ u atividadeId).mpr rfl)
  | leave userId atividadeId db =>
    unfold leaveAtividade
    cases db.participacoes.findIdx?
        (fun p => p.userId == JSValue.num userId && p.atividadeId == atividadeId) with
    | none => exact hn
    | some i => exact List.Nodup.sublist (List.eraseIdx_sublist _ i) hn

/-- In every reachable state the participation collection has no duplicate
records. -/
lemma reachable_participacoes_nodup {db : DB} (h : Reachable db) :
    db.participacoes.Nodup := by
  induction h with
  | empty => simp [DB.empty]
  | step _ hstep ih => exact hstep.participacoes_nodup ih

/-- Claim C1: in every state reachable from empty collections under any
sequence of list, get, create, delete, join and leave requests, each
(userId, atividadeId) pair occurs at most once in the participation
collection; moreover join leaves the state unchanged whenever a matching
pair is already present, so it inserts a pair only when none matches. -/
theorem participacao_unique_invariant (db : DB) (h : Reachable db)
    (u : JSValue) (a : Int) :
    db.participacoes.count ⟨u, a⟩ ≤ 1 ∧
    (Participacao.mk u a ∈ db.participacoes →
      (joinAtividade a (some u) db).2 = db) := by
  constructor
  · exact List.nodup_iff_count_le_one.mp (reachable_participacoes_nodup h) _
  · intro hmem
    unfold joinAtividade
    dsimp only
    split
    · rfl
    · cases hact : db.atividades.find? (fun x => x.id == a) with
      | none => rfl
      | some x =>
        cases hpart : db.participacoes.find?
            (fun p => p.userId == u && p.atividadeId == a) with
        | some q => rfl
        | none =>
          exact absurd ((participacao_match_iff _ u a).mpr rfl)
            (List.find?_eq_none.mp hpart _ hmem)

/-- Concrete instance of the C1 invariant at the reachable state obtained by
creating the Yoga activity and joining it as user 42. -/
theorem participacao_unique_invariant_witness :
    (joinAtividade 1 (some (JSValue.num 42)) dbYoga).2.participacoes.count
        ⟨JSValue.num 42, 1⟩ ≤ 1 ∧
    (Participacao.mk (JSValue.num 42) 1 ∈
        (joinAtividade 1 (some (JSValue.num 42)) dbYoga).2.participacoes →
      (joinAtividade 1 (some (JSValue.num 42))
          (joinAtividade 1 (some (JSValue.num 42)) dbYoga).2).2 =
        (joinAtividade 1 (some (JSValue.num 42)) dbYoga).2) :=
  participacao_unique_invariant _
    (Reachable.step
      (Reachable.step Reachable.empty (Step.create bodyYoga DB.empty))
      (Step.join 1 (some (JSValue.num 42)) dbYoga))
    (JSValue.num 42) 1

/-- Claim C2 counterexample: a join request with no `userId` against the
empty store targets a nonexistent activity, yet the handler answers 400
(userId obrigatorio), not 404 ActivityNotFound: the `userId` presence check,
not the activity lookup, is the first check join performs. -/
theorem join_checks_userId_first :
    (joinAtividade 1 none DB.empty).1 = JoinResult.invalidInput ∧
    DB.empty.atividades.find? (fun a => a.id == 1) = none ∧
    (joinAtividade 1 none DB.empty).1 ≠ JoinResult.activityNotFound := by
  decide

/-- Claim C2 as amended: for every join request whose `userId` is present
and truthy, an activity id matching no stored activity yields
ActivityNotFound (404 with an erro body) and an unchanged state, whatever
the participation collection holds; the activity lookup is the first check
after the `userId` presence check. -/
theorem join_missing_activity (atividadeId : Int) (u : JSValue) (db : DB)
    (hu : u.falsy = false)
    (hact : db.atividades.find? (fun a => a.id == atividadeId) = none) :
    joinAtividade atividadeId (some u) db = (JoinResult.activityNotFound, db) := by
  unfold joinAtividade
  dsimp only
  rw [if_neg (by simp [hu]), hact]

/-- A state holding a stale participation that references activity 5 while
the activity collection is empty (as a delete leaves behind). -/
def dbGhost : DB :=
  { atividades := [],
    participacoes := [{ userId := JSValue.num 7, atividadeId := 5 }] }

/-- Concrete instance of the amended C2: joining nonexistent activity 5 as
user 7 signals ActivityNotFound even though a stale participation for that
very pair is present. -/
theorem join_missing_activity_witness :
    joinAtividade 5 (some (JSValue.num 7)) dbGhost =
      (JoinResult.activityNotFound, dbGhost) :=
  join_missing_activity 5 (JSValue.num 7) dbGhost (by decide) (by decide)

/-- Claim C3 counterexample: a request body carrying an `id` field overrides
the sequential id, because the handler spreads the body after the computed
id: on the empty store the created record gets id 99, not `0 + 1 = 1`. -/
theorem create_body_id_override :
    (createAtividade { id := some 99 } DB.empty).1.id = 99 ∧
    (DB.empty.atividades.length : Int) + 1 = 1 ∧
    (createAtividade { id := some 99 } DB.empty).1.id ≠
      (DB.empty.atividades.length : Int) + 1 := by
  decide

/-- Claim C3 as amended: for every request body that does not itself carry
an `id` field, create succeeds, assigns the new activity the id
`currentCount + 1`, appends the returned record to the collection, and
increases the collection's size by exactly one. -/
theorem create_assigns_sequential_id (body : CreateBody) (db : DB)
    (h : body.id = none) :
    (createAtividade body db).1.id = (db.atividades.length : Int) + 1 ∧
    (createAtividade body db).2.atividades =
      db.atividades ++ [(createAtividade body db).1] ∧
    (createAtividade body db).2.atividades.length = db.atividades.length + 1 := by
  refine ⟨?_, rfl, by simp [createAtividade]⟩
  simp [createAtividade, h]

/-- Concrete instance of the amended C3: creating Corrida in the one-element
Yoga store assigns id 2 and grows the store to two records. -/
theorem create_assigns_sequential_id_witness :
    (createAtividade bodyCorrida dbYoga).1.id = (dbYoga.atividades.length : Int) + 1 ∧
    (createAtividade bodyCorrida dbYoga).2.atividades =
      dbYoga.atividades ++ [(createAtividade bodyCorrida dbYoga).1] ∧
    (createAtividade bodyCorrida dbYoga).2.atividades.length =
      dbYoga.atividades.length + 1 :=
  create_assigns_sequential_id bodyCorrida dbYoga rfl

/-- Claim C4: after create Yoga, create Corrida, delete activity 1, a
further create assigns id `1 + 1 = 2`, which the surviving Corrida record
already carries: the resulting state `dbColl` is reachable and stores two
activities sharing id 2. -/
theorem id_collision_after_delete :
    Reachable dbColl ∧
    (createAtividade bodyNatacao dbOneLeft).1.id = 2 ∧
    dbOneLeft.atividades.countP (fun a => a.id == 2) = 1 ∧
    (dbColl.atividades.map Atividade.id).count 2 = 2 := by
  refine ⟨?_, by decide, by decide, by decide⟩
  exact Reachable.step
    (Reachable.step
      (Reachable.step
        (Reachable.step Reachable.empty (Step.create bodyYoga DB.empty))
        (Step.create bodyCorrida dbYoga))
      (Step.delete 1 dbTwo))
    (Step.create bodyNatacao dbOneLeft)

/-- DELETE /atividades/:id returns the first stored record with matching
id, or nothing when none matches. -/
lemma deleteAtividade_fst (atividadeId : Int) (db : DB) :
    (deleteAtividade atividadeId db).1 =
      db.atividades.find? (fun a => a.id == atividadeId) := by
  unfold deleteAtividade
  cases h : db.atividades.findIdx? (fun a => a.id == atividadeId) with
  | none =>
    dsimp only
    symm
    rw [List.find?_eq_none]
    intro x hx
    simpa using List.findIdx?_eq_none_iff.mp h x hx
  | some i => exact findIdx?_getElem?_eq_find? _ _ i h

/-- The state with the two activities Yoga (id 1) and Corrida (id 2) is
reachable. -/
lemma reachable_dbTwo : Reachable dbTwo :=
  Reachable.step
    (Reachable.step Reachable.empty (Step.create bodyYoga DB.empty))
    (Step.create bodyCorrida dbYoga)

/-- The state left after deleting activity 1 from `dbTwo` is reachable. -/
lemma reachable_dbOneLeft : Reachable dbOneLeft :=
  Reachable.step reachable_dbTwo (Step.delete 1 dbTwo)

/-- The duplicate-id state `dbColl` is reachable from empty collections. -/
lemma reachable_dbColl : Reachable dbColl :=
  Reachable.step reachable_dbOneLeft (Step.create bodyNatacao dbOneLeft)

/-- Claim C5 counterexample: in the reachable state `dbColl` two stored
activities share id 2; deleting id 2 removes only the first of them, so the
subsequent get on id 2 still answers 200 instead of NotFound. -/
theorem delete_then_get_counterexample :
    Reachable dbColl ∧
    (deleteAtividade 2 dbColl).1 =
      some { id := 2, nome := some "Corrida", criador := some "Bia" } ∧
    getAtividade 2 none (deleteAtividade 2 dbColl).2 =
      GetResult.ok { id := 2, nome := some "Natacao", criador := some "Ana" } false ∧
    getAtividade 2 none (deleteAtividade 2 dbColl).2 ≠ GetResult.notFound :=
  ⟨reachable_dbColl, by decide, by decide, by decide⟩

/-- Claim C5 as amended: for every id carried by at most one stored
activity, delete signals NotFound exactly when no stored activity has that
id; otherwise it returns the first record with matching id, removes exactly
one record, and a subsequent get on that id signals NotFound. -/
theorem delete_spec (db : DB) (atividadeId : Int)
    (huniq : db.atividades.countP (fun a => a.id == atividadeId) ≤ 1) :
    ((deleteAtividade atividadeId db).1 = none ↔
      ∀ a ∈ db.atividades, a.id ≠ atividadeId) ∧
    (deleteAtividade atividadeId db).1 =
      db.atividades.find? (fun a => a.id == atividadeId) ∧
    ∀ a, (deleteAtividade atividadeId db).1 = some a →
      (deleteAtividade atividadeId db).2.atividades.length + 1 =
        db.atividades.length ∧
      getAtividade atividadeId none (deleteAtividade atividadeId db).2 =
        GetResult.notFound := by
  refine ⟨?_, deleteAtividade_fst atividadeId db, ?_⟩
  · rw [deleteAtividade_fst]
    simp [List.find?_eq_none]
  · cases hidx : db.atividades.findIdx? (fun x => x.id == atividadeId) with
    | none =>
      intro a ha
      unfold deleteAtividade at ha
      rw [hidx] at ha
      simp at ha
    | some i =>
      intro a ha
      have hlt : i < db.atividades.length :=
        (List.findIdx?_eq_some_iff_findIdx_eq.mp hidx).1
      constructor
      · unfold deleteAtividade
        rw [hidx]
        dsimp only
        rw [List.length_eraseIdx, if_pos hlt]
        omega
      · unfold deleteAtividade
        rw [hidx]
        dsimp only
        unfold getAtividade
        cases hfind : (db.atividades.eraseIdx i).find?
            (fun x => x.id == atividadeId) with
        | none => rfl
        | some y =>
          exfalso
          have hall := countP_le_one_eraseIdx _ _ i huniq hidx y
            (List.mem_of_find?_eq_some hfind)
          have hy := List.find?_some hfind
          rw [hall] at hy
          exact Bool.noConfusion hy

/-- Concrete instance of the amended C5: in the one-activity Yoga store,
deleting id 1 returns the Yoga record, shrinks the store and makes the
subsequent get signal NotFound, while deleting a missing id is NotFound. -/
theorem delete_spec_witness :
    (((deleteAtividade 1 dbYoga).1 = none ↔
      ∀ a ∈ dbYoga.atividades, a.id ≠ 1) ∧
    (deleteAtividade 1 dbYoga).1 =
      dbYoga.atividades.find? (fun a => a.id == 1) ∧
    ∀ a, (deleteAtividade 1 dbYoga).1 = some a →
      (deleteAtividade 1 dbYoga).2.atividades.length + 1 =
        dbYoga.atividades.length ∧
      getAtividade 1 none (deleteAtividade 1 dbYoga).2 =
        GetResult.notFound) :=
  delete_spec dbYoga 1 (by decide)

/-- Claim C6 counterexample: in the reachable state `dbOneLeft` creating the
Natacao activity returns a record with id 2, but the immediate get on id 2
returns the older Corrida record, which is not the created record. -/
theorem create_get_counterexample :
    Reachable dbOneLeft ∧
    getAtividade (createAtividade bodyNatacao dbOneLeft).1.id none
        (createAtividade bodyNatacao dbOneLeft).2 =
      GetResult.ok { id := 2, nome := some "Corrida", criador := some "Bia" } false ∧
    ({ id := 2, nome := some "Corrida", criador := some "Bia" } : Atividade) ≠
      (createAtividade bodyNatacao dbOneLeft).1 :=
  ⟨reachable_dbOneLeft, by decide, by decide⟩

/-- Claim C6 as amended: for every activity A returned by create, if no
previously stored activity shares A's id, then get on A's id immediately
afterwards (with no intervening operations) returns A, with the participa
flag false since no userId accompanies the get. -/
theorem get_after_create (body : CreateBody) (db : DB)
    (hid : ∀ a ∈ db.atividades, a.id ≠ (createAtividade body db).1.id) :
    getAtividade (createAtividade body db).1.id none (createAtividade body db).2 =
      GetResult.ok (createAtividade body db).1 false := by
  unfold getAtividade
  have hnew : (createAtividade body db).2.atividades
      = db.atividades ++ [(createAtividade body db).1] := rfl
  rw [hnew, List.find?_append]
  have hold : db.atividades.find?
      (fun a => a.id == (createAtividade body db).1.id) = none := by
    rw [List.find?_eq_none]
    intro x hx
    simpa using hid x hx
  rw [hold]
  simp [List.find?_cons]

/-- Concrete instance of the amended C6: the Yoga record created in the
empty store is returned by the immediate get on its id. -/
theorem get_after_create_witness :
    getAtividade (createAtividade bodyYoga DB.empty).1.id none
        (createAtividade bodyYoga DB.empty).2 =
      GetResult.ok (createAtividade bodyYoga DB.empty).1 false :=
  get_after_create bodyYoga DB.empty (by decide)

/-- When no participation matches, leave answers 404 and changes nothing. -/
lemma leaveAtividade_of_findIdx?_none (userId atividadeId : Int) (db : DB)
    (h : db.participacoes.findIdx?
      (fun p => p.userId == JSValue.num userId && p.atividadeId == atividadeId) = none) :
    leaveAtividade userId atividadeId db = (LeaveResult.notParticipating, db) := by
  unfold leaveAtividade
  rw [h]

/-- Counting the records matched by the leave/membership predicate is
counting occurrences of the pair itself. -/
lemma countP_participacao_eq_count (l : List Participacao) (u : JSValue) (a : Int) :
    l.countP (fun p => p.userId == u && p.atividadeId == a) = l.count ⟨u, a⟩ := by
  induction l with
  | nil => rfl
  | cons q l ih =>
    rw [List.countP_cons, List.count_cons, ih]
    by_cases hq : q = (⟨u, a⟩ : Participacao)
    · subst hq
      simp [participacao_match_iff]
    · have h1 : (q.userId == u && q.atividadeId == a) = false := by
        rw [Bool.eq_false_iff]
        intro hc
        exact hq ((participacao_match_iff q u a).mp hc)
      have h2 : (q == (⟨u, a⟩ : Participacao)) = false := by
        simpa using hq
      simp [h1, h2]

/-- Claim C7: in every reachable state, a successful leave makes the
(userId, atividadeId) membership test false and a second leave on the same
pair signal NotParticipating; and when no matching pair exists leave removes
nothing, answering NotParticipating with the state unchanged. -/
theorem leave_removes_pair (db : DB) (h : Reachable db) (userId atividadeId : Int) :
    ((leaveAtividade userId atividadeId db).1 ≠ LeaveResult.notParticipating →
      isParticipating (leaveAtividade userId atividadeId db).2 userId atividadeId = false ∧
      (leaveAtividade userId atividadeId
          (leaveAtividade userId atividadeId db).2).1 = LeaveResult.notParticipating) ∧
    (isParticipating db userId atividadeId = false →
      leaveAtividade userId atividadeId db = (LeaveResult.notParticipating, db)) := by
  constructor
  · intro hs
    cases hidx : db.participacoes.findIdx?
        (fun p => p.userId == JSValue.num userId && p.atividadeId == atividadeId) with
    | none =>
      exact absurd (congrArg Prod.fst
        (leaveAtividade_of_findIdx?_none userId atividadeId db hidx)) hs
    | some i =>
      have hcount : db.participacoes.countP
          (fun p => p.userId == JSValue.num userId && p.atividadeId == atividadeId) ≤ 1 := by
        rw [countP_participacao_eq_count]
        exact List.nodup_iff_count_le_one.mp (reachable_participacoes_nodup h) _
      have hall := countP_le_one_eraseIdx _ _ i hcount hidx
      have hpart2 : (leaveAtividade userId atividadeId db).2.participacoes =
          db.participacoes.eraseIdx i := by
        unfold leaveAtividade
        rw [hidx]
      have hnone : (leaveAtividade userId atividadeId db).2.participacoes.findIdx?
          (fun p => p.userId == JSValue.num userId && p.atividadeId == atividadeId) = none := by
        rw [hpart2]
        exact List.findIdx?_eq_none_iff.mpr hall
      constructor
      · unfold isParticipating
        rw [hpart2, List.any_eq_false]
        intro x hx
        simp [hall x hx]
      · rw [leaveAtividade_of_findIdx?_none userId atividadeId _ hnone]
  · intro hfalse
    apply leaveAtividade_of_findIdx?_none
    apply List.findIdx?_eq_none_iff.mpr
    intro x hx
    have hx2 := List.any_eq_false.mp hfalse x hx
    simpa using hx2

/-- The state reached by creating the Yoga activity and joining it as the
numeric user 42. -/
def dbJoined : DB := (joinAtividade 1 (some (JSValue.num 42)) dbYoga).2

/-- `dbJoined` is reachable from empty collections. -/
lemma reachable_dbJoined : Reachable dbJoined :=
  Reachable.step
    (Reachable.step Reachable.empty (Step.create bodyYoga DB.empty))
    (Step.join 1 (some (JSValue.num 42)) dbYoga)

/-- Concrete instance of C7 at the reachable state where user 42 joined
activity 1. -/
theorem leave_removes_pair_witness :
    (((leaveAtividade 42 1 dbJoined).1 ≠ LeaveResult.notParticipating →
      isParticipating (leaveAtividade 42 1 dbJoined).2 42 1 = false ∧
      (leaveAtividade 42 1 (leaveAtividade 42 1 dbJoined).2).1 =
        LeaveResult.notParticipating) ∧
    (isParticipating dbJoined 42 1 = false →
      leaveAtividade 42 1 dbJoined = (LeaveResult.notParticipating, dbJoined))) :=
  leave_removes_pair dbJoined reachable_dbJoined 42 1

/-- Claim C8 counterexample: with the query filter set to the empty string
the handler takes the no-filter branch (empty strings are falsy in the
`if (criador)` test), so the full one-element Yoga store is returned even
though no stored activity has the empty string as creator name. -/
theorem list_empty_filter_counterexample :
    listAtividades (some "") dbYoga = some dbYoga.atividades ∧
    dbYoga.atividades.filter
      (fun a => toLowerStr (a.criador.getD "") == toLowerStr "") = [] ∧
    dbYoga.atividades ≠ [] := by
  decide

/-- Claim C8 as amended: list returns every stored activity, in stored
order, when the filter is absent or empty; for a non-empty creator-name
filter it returns exactly the stored activities whose creator name matches
case-insensitively and signals no error, provided every stored activity
carries a creator name (an activity without one makes the filtering scan
throw). -/
theorem list_spec (q : Option String) (db : DB) :
    ((q = none ∨ q = some "") → listAtividades q db = some db.atividades) ∧
    (∀ s, q = some s → s ≠ "" →
      (∀ a ∈ db.atividades, a.criador.isSome) →
      listAtividades q db = some (db.atividades.filter
        (fun a => toLowerStr (a.criador.getD "") == toLowerStr s))) := by
  constructor
  · rintro (rfl | rfl)
    · rfl
    · rfl
  · rintro s rfl hs hall
    unfold listAtividades
    dsimp only
    rw [if_neg (by simpa using hs)]
    rw [if_pos (List.all_eq_true.mpr (fun a ha => by simpa using hall a ha))]

/-- Concrete instance of the amended C8: filtering the Yoga store by the
creator name ANA returns exactly the activities created by Ana,
case-insensitively. -/
theorem list_spec_witness :
    listAtividades (some "ANA") dbYoga =
      some (dbYoga.atividades.filter
        (fun a => toLowerStr (a.criador.getD "") == toLowerStr "ANA")) :=
  (list_spec (some "ANA") dbYoga).2 "ANA" rfl (by decide) (by decide)

/-- Claim C9: each component mutates only its own collection: create and
delete on the activity store never change the participation collection
(participations referencing a deleted activity are left dangling, with no
cascade), and join and leave never change the activity collection. -/
theorem component_frame (body : CreateBody) (atividadeId userId2 : Int)
    (userId : Option JSValue) (db : DB) :
    (createAtividade body db).2.participacoes = db.participacoes ∧
    (deleteAtividade atividadeId db).2.participacoes = db.participacoes ∧
    (joinAtividade atividadeId userId db).2.atividades = db.atividades ∧
    (leaveAtividade userId2 atividadeId db).2.atividades = db.atividades :=
  ⟨createAtividade_participacoes body db,
   deleteAtividade_participacoes atividadeId db,
   joinAtividade_atividades atividadeId userId db,
   leaveAtividade_atividades userId2 atividadeId db⟩

